import Mathlib

/-!
Verification of the cloud session and device-control client of
homebridge-smart-diffuser-lbslm.

We shallowly embed the JavaScript sources:
  * src/accessory (DiffuserAccessory: _callApi, setRotationSpeed,
    updateTimerIntensity, getRotationSpeed, setLock, pollStatus),
  * src/auth (AuthClient.login),
  * src/platform (DiffuserPlatform.refreshSession).

HTTP traffic is modelled by an oracle list of events consumed in order;
JavaScript values that flow through the code are modelled by a small
primitive-value type `JPrim`, and JSON response payloads by the schema
types the endpoints actually produce.
-/

deriving instance DecidableEq for Except

/-- A primitive JavaScript value as it appears in query parameters and
wire payload fields: undefined, null, booleans, numbers and strings. -/
inductive JPrim where
  | undefined : JPrim
  | null : JPrim
  | bool : Bool → JPrim
  | num : ℚ → JPrim
  | str : String → JPrim
deriving DecidableEq, Repr

/-- JavaScript truthiness of a primitive value: undefined and null are
falsy, a boolean is itself, a number is truthy iff nonzero, a string is
truthy iff nonempty. -/
def jTruthy : JPrim → Bool
  | .undefined => false
  | .null => false
  | .bool b => b
  | .num q => q ≠ 0
  | .str s => s ≠ ""

/-- JavaScript strict equality `x === true`: only the boolean true. -/
def jstrictTrue : JPrim → Bool
  | .bool b => b
  | _ => false

/-- JavaScript `Math.round`: round half toward positive infinity,
`Math.round x = ⌊x + 1/2⌋`. -/
def jsRound (x : ℚ) : ℤ :=
  ⌊x + 1/2⌋

/-- JavaScript `String.prototype.startsWith`, expressed over the
character data so that it evaluates by reduction. -/
def jsStartsWith (s p : String) : Bool :=
  p.data.isPrefixOf s.data

/-- JavaScript `x || 0` for a numeric-or-absent field: an absent field is
falsy, the number 0 is falsy, any other number is itself. -/
def jsNumOr0 : Option ℚ → ℚ
  | some q => if q = 0 then 0 else q
  | none => 0

/-- Session credentials `{token, uid, sessionId}` as returned by the
platform refreshSession (src/platform lines 72-76). -/
structure Creds where
  token : String
  uid : String
  sessionId : String
deriving DecidableEq, Repr

/-- A timer object from the `/timerList.do` payload, with exactly the
fields the client reads (src/accessory lines 149-158).  `run` is the
numeric run time (or absent); the other fields pass through verbatim. -/
structure Timer where
  timerId : JPrim
  uid : JPrim
  name : JPrim
  start : JPrim
  stop : JPrim
  mode : JPrim
  run : Option ℚ
  suspend : JPrim
deriving DecidableEq, Repr

/-- The `data` object of a status response (src/accessory lines 310-328):
`status` and `lockMark` are arbitrary primitives, `run` and `liquidLevel`
are numeric or absent. -/
structure StatusData where
  status : JPrim
  run : Option ℚ
  liquidLevel : Option ℚ
  lockMark : JPrim
deriving DecidableEq, Repr

/-- The `data` field of a parsed API response: absent (undefined), a
timer array, or a status object. -/
inductive JData where
  | undefined : JData
  | timers : List Timer → JData
  | statusObj : StatusData → JData
deriving DecidableEq, Repr

/-- JavaScript truthiness of the `data` field: undefined is falsy, arrays
and objects are truthy (including the empty array). -/
def JData.truthy : JData → Bool
  | .undefined => false
  | _ => true

/-- A parsed JSON body of a device API response: the `status` field string
the client compares against, plus the `data` payload. -/
structure ApiResponse where
  status : String
  data : JData
deriving DecidableEq, Repr

/-- One observed HTTP exchange: a response with an HTTP status code and a
parsed body (`none` models a non-JSON body), or a transport error. -/
inductive HttpEvent where
  | resp : Nat → Option ApiResponse → HttpEvent
  | tErr : HttpEvent
deriving DecidableEq, Repr

/-- The failure classification of `_callApi` (src/accessory lines 229-279). -/
inductive ApiErr where
  | httpError : Nat → ApiErr
  | invalidResponse : ApiErr
  | apiStatus : String → ApiErr
  | authExhausted : ApiErr
  | refreshFailed : String → ApiErr
  | transport : ApiErr
deriving DecidableEq, Repr

/-- One outbound request as assembled by `_callApi`: the resource path
(after base-path handling), the query pairs, and the Cookie header. -/
structure Request where
  path : String
  query : List (String × JPrim)
  cookie : String
deriving DecidableEq, Repr

/-- The mutable per-accessory state the modelled operations touch:
fixed identity (`nid`, `appid`, `username`), cached session credentials
(`token`, `uid`, `sessionId`), and the device caches. -/
structure AccState where
  nid : String
  appid : String
  username : String
  token : String
  uid : String
  sessionId : String
  isOn : Bool
  oilLevel : ℚ
  timerCache : Option Timer
deriving DecidableEq, Repr

/-- Non-deterministic inputs of a call: the wall-clock timestamp used in
the query, and the outcome the platform refresh would produce. -/
structure Env where
  ts : ℚ
  refreshResult : Except String Creds
deriving Repr

/-- Result of running `_callApi`: the settled promise value, the state
after the call, every request issued (in order), the refresh invocation
count, and the unconsumed HTTP events. -/
structure Outcome where
  result : Except ApiErr ApiResponse
  state : AccState
  requests : List Request
  refreshes : Nat
  rest : List HttpEvent
deriving Repr

/-- The Cookie header assembled from the current cached credential
fields (src/accessory line 225). -/
def cookieOf (st : AccState) : String :=
  "appid=" ++ st.appid ++ ";uid=" ++ st.uid ++ ";token=" ++ st.token ++
    ";SESSIONID=" ++ st.sessionId ++ ";username=" ++ st.username

/-- Overwrite the cached token/uid/sessionId with refreshed credentials
(src/accessory lines 242-244). -/
def applyCreds (st : AccState) (c : Creds) : AccState :=
  { st with token := c.token, uid := c.uid, sessionId := c.sessionId }

/-- Insertion into a JavaScript object literal: an existing key is
overwritten in place, a new key is appended. -/
def objInsert (l : List (String × JPrim)) (kv : String × JPrim) :
    List (String × JPrim) :=
  if l.any (fun p => p.1 = kv.1) then
    l.map (fun p => if p.1 = kv.1 then (p.1, kv.2) else p)
  else
    l ++ [kv]

/-- The query object `{nid, timestamp, ...params}` of src/accessory
lines 208-212: the injected pairs first, then the caller params spread
over them (so a caller key equal to `nid`/`timestamp` overwrites). -/
def buildQuery (nid : String) (ts : ℚ) (params : List (String × JPrim)) :
    List (String × JPrim) :=
  params.foldl objInsert [("nid", .str nid), ("timestamp", .num ts)]

/-- Base path handling of src/accessory line 216: a path starting with
`/admin` is issued root-relative, any other path gets `/amosFragrance`
prepended. -/
def resourcePathOf (path : String) : String :=
  if jsStartsWith path "/admin" then path else "/amosFragrance" ++ path

/-- First-key lookup in a query pair list. -/
def qlookup (q : List (String × JPrim)) (k : String) : Option JPrim :=
  (q.find? (fun p => p.1 = k)).map (fun p => p.2)

/-- The `_callApi` method of src/accessory lines 204-280, phrased over
the number of retries still allowed (`retriesLeft = 1 - retryCount`, so
that the recursion is structural; the source's guard `retryCount < 1` is
exactly `retriesLeft ≠ 0`).  The HTTP oracle `ev` supplies one event per
issued request.  On a body status of `AuthenticationException` or `401`
with a retry still allowed, the platform refresh outcome
`env.refreshResult` is consulted: on success the cached credentials are
overwritten and the call is re-issued with one fewer retry allowed; a
refresh failure or an auth failure with no retry left rejects. -/
def callApiAux (env : Env) (path : String) (params : List (String × JPrim)) :
    AccState → List HttpEvent → Nat → Outcome
  | st, ev, retriesLeft =>
    let req : Request :=
      { path := resourcePathOf path
        query := buildQuery st.nid env.ts params
        cookie := cookieOf st }
    match ev with
    | [] =>
        { result := .error .transport, state := st, requests := [req],
          refreshes := 0, rest := [] }
    | .tErr :: rest =>
        { result := .error .transport, state := st, requests := [req],
          refreshes := 0, rest := rest }
    | .resp code body :: rest =>
        if code = 200 then
          match body with
          | none =>
              { result := .error .invalidResponse, state := st,
                requests := [req], refreshes := 0, rest := rest }
          | some json =>
              if json.status = "AuthenticationException" ∨ json.status = "401" then
                match retriesLeft with
                | Nat.succ n =>
                    match env.refreshResult with
                    | .ok creds =>
                        let o := callApiAux env path params
                          (applyCreds st creds) rest n
                        { o with requests := req :: o.requests,
                                 refreshes := o.refreshes + 1 }
                    | .error msg =>
                        { result := .error (.refreshFailed msg), state := st,
                          requests := [req], refreshes := 1, rest := rest }
                | 0 =>
                    { result := .error .authExhausted, state := st,
                      requests := [req], refreshes := 0, rest := rest }
              else if json.status = "200" then
                { result := .ok json, state := st, requests := [req],
                  refreshes := 0, rest := rest }
              else
                { result := .error (.apiStatus json.status), state := st,
                  requests := [req], refreshes := 0, rest := rest }
        else
          { result := .error (.httpError code), state := st,
            requests := [req], refreshes := 0, rest := rest }

/-- `_callApi` with the source's `retryCount` parameter (default 0):
`1 - retryCount` retries remain. -/
def callApi (st : AccState) (env : Env) (ev : List HttpEvent)
    (path : String) (params : List (String × JPrim)) (retryCount : Nat) :
    Outcome :=
  callApiAux env path params st ev (1 - retryCount)

/-- Failure of `updateTimerIntensity`: an underlying API failure, or an
empty/absent timer list (src/accessory lines 139-141). -/
inductive IntensityErr where
  | api : ApiErr → IntensityErr
  | noTimersFound : IntensityErr
deriving DecidableEq, Repr

/-- Result of running `updateTimerIntensity`. -/
structure TimerOpOut where
  result : Except IntensityErr Unit
  state : AccState
  requests : List Request
  refreshes : Nat
  rest : List HttpEvent
deriving Repr

/-- A numeric-or-absent wire field as a primitive value. -/
def JPrim.ofNumOpt : Option ℚ → JPrim
  | some q => .num q
  | none => .undefined

/-- The `/updateTimer.do` params object of src/accessory lines 149-158:
every field of the fetched timer verbatim, except `run`, which carries
the new run time. -/
def timerParams (timer : Timer) (newRunTime : ℚ) : List (String × JPrim) :=
  [("timerId", timer.timerId), ("uid", timer.uid), ("name", timer.name),
   ("start", timer.start), ("stop", timer.stop), ("mode", timer.mode),
   ("run", .num newRunTime), ("suspend", timer.suspend)]

/-- The `updateTimerIntensity` method of src/accessory lines 129-161:
fetch `/timerList.do`, fail `noTimersFound` unless the `data` payload is
a non-empty array (the source condition
`!listJson || !listJson.data || !listJson.data.length` holds exactly when
`data` is not a timer array with positive length, since the resolved
`listJson` object itself is always truthy), cache the first timer, then
call `/updateTimer.do` with its fields and the new run time. -/
def updateTimerIntensity (st : AccState) (env : Env) (ev : List HttpEvent)
    (newRunTime : ℚ) : TimerOpOut :=
  let o := callApi st env ev "/timerList.do" [("isBluetooth", .num 0)] 0
  match o.result with
  | .error e =>
      { result := .error (.api e), state := o.state, requests := o.requests,
        refreshes := o.refreshes, rest := o.rest }
  | .ok listJson =>
      match listJson.data with
      | .timers (timer :: _) =>
          let st1 := { o.state with timerCache := some timer }
          let o2 := callApi st1 env o.rest "/updateTimer.do"
            (timerParams timer newRunTime) 0
          { result := Except.mapError .api (o2.result.map fun _ => ()),
            state := o2.state, requests := o.requests ++ o2.requests,
            refreshes := o.refreshes + o2.refreshes, rest := o2.rest }
      | _ =>
          { result := .error .noTimersFound, state := o.state,
            requests := o.requests, refreshes := o.refreshes, rest := o.rest }

/-- The caller-facing failure raised by the characteristic handlers
(`HapStatusError` with `SERVICE_COMMUNICATION_FAILURE`). -/
inductive HapErr where
  | serviceCommFailure : HapErr
deriving DecidableEq, Repr

/-- Result of running `setRotationSpeed`. -/
structure SpeedOut where
  result : Except HapErr Unit
  state : AccState
  requests : List Request
  refreshes : Nat
  rest : List HttpEvent
deriving Repr

/-- The `setRotationSpeed` method of src/accessory lines 101-119: a value
strictly equal to 0 returns immediately with no call; otherwise the run
time is `Math.max(5, Math.round(value * 3))` and `updateTimerIntensity`
runs, any failure being rethrown as a service-communication failure. -/
def setRotationSpeed (st : AccState) (env : Env) (ev : List HttpEvent)
    (value : ℚ) : SpeedOut :=
  if value = 0 then
    { result := .ok (), state := st, requests := [], refreshes := 0, rest := ev }
  else
    let runTime : ℤ := max 5 (jsRound (value * 3))
    let o := updateTimerIntensity st env ev (runTime : ℚ)
    { result := Except.mapError (fun _ => .serviceCommFailure) o.result,
      state := o.state, requests := o.requests, refreshes := o.refreshes,
      rest := o.rest }

/-- The `getRotationSpeed` method of src/accessory lines 121-127: purely
from the cached timer (no network), `min(100, round((run || 0) / 3))`
when a timer is cached, the fixed default 50 otherwise. -/
def getRotationSpeed (st : AccState) : ℤ :=
  match st.timerCache with
  | some timer => min 100 (jsRound (jsNumOr0 timer.run / 3))
  | none => 50

/-- A deferred action registered with `setTimeout`: re-poll after the
given delay, or push the given value to the LockPhysicalControls
characteristic after the given delay. -/
inductive ScheduledAction where
  | pollAfter : Nat → ScheduledAction
  | setLockChar : Nat → Nat → ScheduledAction
deriving DecidableEq, Repr

/-- Result of running `setLock`. -/
structure LockOut where
  result : Except HapErr Unit
  state : AccState
  requests : List Request
  refreshes : Nat
  scheduled : List ScheduledAction
  rest : List HttpEvent
deriving Repr

/-- The endpoint chosen by `setLock` (src/accessory lines 167-173). -/
def lockEndpoint (value : Bool) : String :=
  if value then "/admin/amos/deviceLock.do" else "/admin/amos/deviceUnlock.do"

/-- The params passed by `setLock`: none for lock, `{days: 0, name: ""}`
for unlock (src/accessory line 172). -/
def lockParams (value : Bool) : List (String × JPrim) :=
  if value then [] else [("days", .num 0), ("name", .str "")]

/-- The `setLock` method of src/accessory lines 163-185: call the lock or
unlock admin endpoint; on success schedule a status re-poll after 1000ms;
on failure schedule, after 500ms, a characteristic update to
`!value ? 1 : 0` (the opposite of the requested state) and rethrow as a
service-communication failure. -/
def setLock (st : AccState) (env : Env) (ev : List HttpEvent)
    (value : Bool) : LockOut :=
  let o := callApi st env ev (lockEndpoint value) (lockParams value) 0
  match o.result with
  | .ok _ =>
      { result := .ok (), state := o.state, requests := o.requests,
        refreshes := o.refreshes, scheduled := [.pollAfter 1000],
        rest := o.rest }
  | .error _ =>
      { result := .error .serviceCommFailure, state := o.state,
        requests := o.requests, refreshes := o.refreshes,
        scheduled := [.setLockChar 500 (if !value then 1 else 0)],
        rest := o.rest }

/-- Field access `data.status` on the `data` payload: undefined unless
the payload is a status object carrying the field. -/
def JData.statusOf : JData → JPrim
  | .statusObj d => d.status
  | _ => .undefined

/-- Field access `data.run` on the `data` payload. -/
def JData.runOf : JData → Option ℚ
  | .statusObj d => d.run
  | _ => none

/-- Field access `data.liquidLevel` on the `data` payload. -/
def JData.liquidLevelOf : JData → Option ℚ
  | .statusObj d => d.liquidLevel
  | _ => none

/-- Field access `data.lockMark` on the `data` payload. -/
def JData.lockMarkOf : JData → JPrim
  | .statusObj d => d.lockMark
  | _ => .undefined

/-- The characteristic values pushed by one successful poll
(src/accessory lines 317-329). -/
structure CharUpdates where
  onValue : Bool
  filterLife : ℚ
  lock : Nat
  speed : ℤ
deriving DecidableEq, Repr

/-- Result of running `pollStatus`. -/
structure PollOut where
  state : AccState
  updates : Option CharUpdates
  requests : List Request
  refreshes : Nat
  rest : List HttpEvent
deriving Repr

/-- The `pollStatus` method of src/accessory lines 306-336: one status
call; every failure is swallowed (state and characteristics untouched);
a success with truthy `data` updates `isOn` by strict equality of the
wire `status` with `true`, `oilLevel` to `liquidLevel || 0`, the lock
characteristic to the truthiness of `lockMark`, and the rotation speed
characteristic to `min(100, round((run || 0) / 3))`; a success without
`data` is a no-op. -/
def pollStatus (st : AccState) (env : Env) (ev : List HttpEvent) : PollOut :=
  let o := callApi st env ev "/amosFragrance.do" [("checkPermissions", .num 0)] 0
  match o.result with
  | .error _ =>
      { state := o.state, updates := none, requests := o.requests,
        refreshes := o.refreshes, rest := o.rest }
  | .ok response =>
      if response.data.truthy then
        let isOn := jstrictTrue response.data.statusOf
        let oil := jsNumOr0 response.data.liquidLevelOf
        let lockState : Nat := if jTruthy response.data.lockMarkOf then 1 else 0
        let speed : ℤ := min 100 (jsRound (jsNumOr0 response.data.runOf / 3))
        { state := { o.state with isOn := isOn, oilLevel := oil },
          updates := some
            { onValue := isOn, filterLife := oil, lock := lockState, speed := speed },
          requests := o.requests, refreshes := o.refreshes, rest := o.rest }
      else
        { state := o.state, updates := none, requests := o.requests,
          refreshes := o.refreshes, rest := o.rest }

/-- Failure classification of `AuthClient.login` (src/auth lines 71-97). -/
inductive LoginErr where
  | invalidCredentials : LoginErr
  | httpError : Nat → LoginErr
  | transport : LoginErr
deriving DecidableEq, Repr

/-- The observed outcome of the login HTTP exchange: a response with its
status code, optional `Set-Cookie` header list and body text, or a
transport error. -/
inductive LoginEvent where
  | resp : Nat → Option (List String) → String → LoginEvent
  | tErr : LoginEvent
deriving DecidableEq, Repr

/-- Whether `pat` occurs as a contiguous run inside `l`. -/
def listIncludes : List Char → List Char → Bool
  | pat, [] => pat.isEmpty
  | pat, c :: t => pat.isPrefixOf (c :: t) || listIncludes pat t

/-- JavaScript `String.prototype.includes`, expressed over the character
data so that it evaluates by reduction. -/
def jsIncludes (s marker : String) : Bool :=
  listIncludes marker.data s.data

/-- The `login` method of src/auth lines 49-101: a 2xx/3xx status with a
`Set-Cookie` header resolves with the cookies; without one, a body
containing `AuthenticationException` rejects with invalid credentials and
any other body resolves with null; a status outside 2xx/3xx rejects with
`HTTP <status>`; a request error rejects as transport failure. -/
def login (ev : LoginEvent) : Except LoginErr (Option (List String)) :=
  match ev with
  | .tErr => .error .transport
  | .resp code cookies body =>
      if 200 ≤ code ∧ code < 400 then
        match cookies with
        | some cs => .ok (some cs)
        | none =>
            if jsIncludes body "AuthenticationException" then
              .error .invalidCredentials
            else
              .ok none
      else
        .error (.httpError code)

/-- The session-coordinator state of `DiffuserPlatform.refreshSession`
(src/platform lines 49-60): the optional in-flight refresh promise
(identified by the serial number of the underlying login it wraps) and
the number of underlying `_executeRefresh` logins started so far. -/
structure CoordState where
  inFlight : Option Nat
  logins : Nat
deriving DecidableEq, Repr

/-- One `refreshSession()` invocation (src/platform lines 49-60).  The
body is synchronous up to returning the promise, so on the JavaScript
event loop each invocation is one atomic step: if a refresh promise is in
flight the caller receives that same promise and no login starts;
otherwise a new `_executeRefresh` login starts, its promise is stored as
in-flight, and the caller receives it.  Returns the new state and the
promise the caller awaits. -/
def refreshSessionStep (s : CoordState) : CoordState × Nat :=
  match s.inFlight with
  | some f => (s, f)
  | none => ({ inFlight := some s.logins, logins := s.logins + 1 }, s.logins)

/-- Settlement of the in-flight refresh promise: the `finally` handler of
src/platform lines 55-57 clears the in-flight marker regardless of the
outcome (success or failure) of the underlying login. -/
def settleRefresh (s : CoordState) (_outcome : Except String Creds) :
    CoordState :=
  { s with inFlight := none }

/-! Concrete sample values used by the witness theorems below. -/

/-- A sample accessory state with stale credentials. -/
def wSt : AccState :=
  { nid := "nid1", appid := "19987617", username := "user", token := "tokOld",
    uid := "uidOld", sessionId := "sesOld", isOn := false, oilLevel := 100,
    timerCache := none }

/-- Sample refreshed credentials. -/
def wCreds : Creds := { token := "tokNew", uid := "uidNew", sessionId := "sesNew" }

/-- A sample environment whose refresh succeeds. -/
def wEnv : Env := { ts := 42, refreshResult := .ok wCreds }

/-- A sample environment whose refresh fails. -/
def wEnvFail : Env := { ts := 42, refreshResult := .error "refresh down" }

/-- A sample success body. -/
def wOk : ApiResponse := { status := "200", data := .undefined }

/-- A sample auth-failure body. -/
def wAuth : ApiResponse := { status := "AuthenticationException", data := .undefined }

/-- A sample timer. -/
def wTimer : Timer :=
  { timerId := .num 7, uid := .str "tu", name := .str "Morning",
    start := .str "08:00", stop := .str "20:00", mode := .num 1,
    run := some 5, suspend := .num 25 }

/-- C1: for every call through the Device API Caller, if the first HTTP
response has status 200 with JSON body status `AuthenticationException`
(or `401`) and the second response has JSON body status `200`, then the
call resolves successfully with the second body, the platform refresh is
invoked exactly once, the caller's cached token/uid/sessionId are
overwritten with the refresh result, and the retried request's Cookie
header is assembled from the refreshed credentials. -/
theorem callApi_auth_retry_succeeds
    (st : AccState) (env : Env) (path : String) (params : List (String × JPrim))
    (creds : Creds) (j1 j2 : ApiResponse) (rest : List HttpEvent)
    (hr : env.refreshResult = .ok creds)
    (h1 : j1.status = "AuthenticationException" ∨ j1.status = "401")
    (h2 : j2.status = "200") :
    (callApi st env (.resp 200 (some j1) :: .resp 200 (some j2) :: rest)
        path params 0).result = .ok j2 ∧
    (callApi st env (.resp 200 (some j1) :: .resp 200 (some j2) :: rest)
        path params 0).refreshes = 1 ∧
    (callApi st env (.resp 200 (some j1) :: .resp 200 (some j2) :: rest)
        path params 0).state.token = creds.token ∧
    (callApi st env (.resp 200 (some j1) :: .resp 200 (some j2) :: rest)
        path params 0).state.uid = creds.uid ∧
    (callApi st env (.resp 200 (some j1) :: .resp 200 (some j2) :: rest)
        path params 0).state.sessionId = creds.sessionId ∧
    (callApi st env (.resp 200 (some j1) :: .resp 200 (some j2) :: rest)
        path params 0).requests.map Request.cookie =
      [cookieOf st, cookieOf (applyCreds st creds)] := by
  rcases h1 with h1 | h1 <;>
    simp [callApi, callApiAux, h1, h2, hr, applyCreds]

/-- Witness for C1 at concrete inputs. -/
theorem callApi_auth_retry_succeeds_witness :
    (callApi wSt wEnv [.resp 200 (some wAuth), .resp 200 (some wOk)]
        "/openFragrance.do" [] 0).result = .ok wOk ∧
    (callApi wSt wEnv [.resp 200 (some wAuth), .resp 200 (some wOk)]
        "/openFragrance.do" [] 0).refreshes = 1 ∧
    (callApi wSt wEnv [.resp 200 (some wAuth), .resp 200 (some wOk)]
        "/openFragrance.do" [] 0).state.token = "tokNew" ∧
    (callApi wSt wEnv [.resp 200 (some wAuth), .resp 200 (some wOk)]
        "/openFragrance.do" [] 0).state.uid = "uidNew" ∧
    (callApi wSt wEnv [.resp 200 (some wAuth), .resp 200 (some wOk)]
        "/openFragrance.do" [] 0).state.sessionId = "sesNew" ∧
    (callApi wSt wEnv [.resp 200 (some wAuth), .resp 200 (some wOk)]
        "/openFragrance.do" [] 0).requests.map Request.cookie =
      ["appid=19987617;uid=uidOld;token=tokOld;SESSIONID=sesOld;username=user",
       "appid=19987617;uid=uidNew;token=tokNew;SESSIONID=sesNew;username=user"] := by
  have h := callApi_auth_retry_succeeds wSt wEnv "/openFragrance.do" []
    wCreds wAuth wOk [] rfl (Or.inl rfl) rfl
  simpa [wSt, wCreds, cookieOf, applyCreds] using h

/-- C2: for every call through the Device API Caller, if two consecutive
responses both carry an authentication-failure body status, the call
fails (whatever the refresh outcome) and no third HTTP request is
issued: at most two requests ever happen for the logical call. -/
theorem callApi_two_auth_failures_terminal
    (st : AccState) (env : Env) (path : String) (params : List (String × JPrim))
    (j1 j2 : ApiResponse) (rest : List HttpEvent)
    (h1 : j1.status = "AuthenticationException" ∨ j1.status = "401")
    (h2 : j2.status = "AuthenticationException" ∨ j2.status = "401") :
    (∃ e, (callApi st env (.resp 200 (some j1) :: .resp 200 (some j2) :: rest)
        path params 0).result = .error e) ∧
    (callApi st env (.resp 200 (some j1) :: .resp 200 (some j2) :: rest)
        path params 0).requests.length ≤ 2 ∧
    (env.refreshResult.isOk = true →
      (callApi st env (.resp 200 (some j1) :: .resp 200 (some j2) :: rest)
          path params 0).result = .error .authExhausted) := by
  rcases hrc : env.refreshResult with msg | creds <;>
    rcases h1 with h1 | h1 <;> rcases h2 with h2 | h2 <;>
      simp [callApi, callApiAux, h1, h2, hrc, Except.isOk, Except.toBool]

/-- Witness for C2 at concrete inputs. -/
theorem callApi_two_auth_failures_terminal_witness :
    (∃ e, (callApi wSt wEnv [.resp 200 (some wAuth), .resp 200 (some wAuth)]
        "/openFragrance.do" [] 0).result = .error e) ∧
    (callApi wSt wEnv [.resp 200 (some wAuth), .resp 200 (some wAuth)]
        "/openFragrance.do" [] 0).requests.length ≤ 2 ∧
    (wEnv.refreshResult.isOk = true →
      (callApi wSt wEnv [.resp 200 (some wAuth), .resp 200 (some wAuth)]
          "/openFragrance.do" [] 0).result = .error .authExhausted) := by
  exact callApi_two_auth_failures_terminal wSt wEnv "/openFragrance.do" []
    wAuth wAuth [] (Or.inl rfl) (Or.inl rfl)

/-- C3: for any two refresh() calls made while a refresh is already in
flight (including two concurrent calls starting from the idle state),
both callers receive the same promise and hence the same resulting
credentials value, at most one underlying login is performed (exactly one
from idle, none beyond the already-running one otherwise), and on
completion — success or failure alike — the in-flight marker is cleared
so a subsequent refresh starts a new login. -/
theorem refreshSession_dedup (s : CoordState) (outcome : Nat → Except String Creds) :
    (refreshSessionStep (refreshSessionStep s).1).2 = (refreshSessionStep s).2 ∧
    outcome (refreshSessionStep (refreshSessionStep s).1).2 =
      outcome (refreshSessionStep s).2 ∧
    (refreshSessionStep (refreshSessionStep s).1).1.logins ≤ s.logins + 1 ∧
    (s.inFlight = none →
      (refreshSessionStep (refreshSessionStep s).1).1.logins = s.logins + 1) ∧
    (∀ f, s.inFlight = some f →
      (refreshSessionStep (refreshSessionStep s).1).1 = s ∧
      (refreshSessionStep s).2 = f) ∧
    (∀ o, (settleRefresh (refreshSessionStep (refreshSessionStep s).1).1 o).inFlight
      = none) ∧
    (∀ o, s.inFlight = none →
      (refreshSessionStep
        (settleRefresh (refreshSessionStep (refreshSessionStep s).1).1 o)).1.logins
        = s.logins + 2) := by
  obtain ⟨inf, n⟩ := s
  cases inf <;> simp [refreshSessionStep, settleRefresh]

/-- Witness for C3 at concrete inputs. -/
theorem refreshSession_dedup_witness :
    (refreshSessionStep (refreshSessionStep ⟨none, 5⟩).1).2 = 5 ∧
    (refreshSessionStep (refreshSessionStep ⟨none, 5⟩).1).1.logins = 6 ∧
    (settleRefresh (refreshSessionStep (refreshSessionStep ⟨none, 5⟩).1).1
      (.error "login down")).inFlight = none ∧
    (refreshSessionStep (settleRefresh
      (refreshSessionStep (refreshSessionStep ⟨none, 5⟩).1).1
      (.error "login down"))).1.logins = 7 := by
  have h := refreshSession_dedup ⟨none, 5⟩ (fun _ => .ok wCreds)
  refine ⟨?_, ?_, h.2.2.2.2.2.1 _, ?_⟩
  · simp [refreshSessionStep]
  · simpa using h.2.2.2.1 rfl
  · simpa using h.2.2.2.2.2.2 (.error "login down") rfl

/-- Key lookup after a map that overwrites the value at one key: lookups
at a different key are unchanged. -/
theorem find?_comp_keyfix (l : List (String × JPrim)) (kv : String × JPrim)
    (k : String) (h : ¬ kv.1 = k) :
    qlookup (l.map (fun p => if p.1 = kv.1 then (p.1, kv.2) else p)) k =
      qlookup l k := by
  unfold qlookup
  have hcomp : ((fun p : String × JPrim => decide (p.1 = k)) ∘
      fun p => if p.1 = kv.1 then (p.1, kv.2) else p) =
      fun p : String × JPrim => decide (p.1 = k) := by
    funext p
    by_cases hq : p.1 = kv.1 <;> simp [hq]
  cases hf : List.find? (fun p : String × JPrim => decide (p.1 = k)) l with
  | none => simp [List.find?_map, hcomp, hf]
  | some a =>
    have hak : a.1 = k := by simpa using List.find?_some hf
    have hne : ¬ a.1 = kv.1 := fun hc => h (hc ▸ hak)
    simp [List.find?_map, hcomp, hf, hne]

/-- Inserting a pair with a different key into an object does not change
the lookup at `k`. -/
theorem qlookup_objInsert_of_ne (l : List (String × JPrim)) (kv : String × JPrim)
    (k : String) (h : ¬ kv.1 = k) : qlookup (objInsert l kv) k = qlookup l k := by
  unfold objInsert
  split
  · exact find?_comp_keyfix l kv k h
  · unfold qlookup
    cases hf : List.find? (fun p : String × JPrim => decide (p.1 = k)) l with
    | none => simp [List.find?_append, hf, List.find?, h]
    | some a => simp [List.find?_append, hf]

/-- Spreading params none of which uses key `k` over an object leaves the
lookup at `k` unchanged. -/
theorem qlookup_buildQuery_of_fresh (params : List (String × JPrim)) (k : String)
    (hk : ∀ p ∈ params, ¬ p.1 = k) (init : List (String × JPrim)) :
    qlookup (params.foldl objInsert init) k = qlookup init k := by
  induction params generalizing init with
  | nil => rfl
  | cons p t ih =>
    simp only [List.foldl_cons]
    rw [ih (fun q hq => hk q (List.mem_cons_of_mem p hq)) (objInsert init p),
      qlookup_objInsert_of_ne init p k (hk p (List.mem_cons_self p t))]

/-- The first request issued by `_callApi` carries the resource path, the
merged query and the Cookie header built from the entry state. -/
theorem callApiAux_requests_head (env : Env) (path : String)
    (params : List (String × JPrim)) (st : AccState) (ev : List HttpEvent)
    (n : Nat) :
    (callApiAux env path params st ev n).requests.head? =
      some { path := resourcePathOf path,
             query := buildQuery st.nid env.ts params,
             cookie := cookieOf st } := by
  cases ev with
  | nil => simp [callApiAux]
  | cons e rest =>
    cases e with
    | tErr => simp [callApiAux]
    | resp code body =>
      simp only [callApiAux]
      repeat' split
      all_goals simp

/-- `_callApi` only ever rewrites the credential fields of the state: the
timer cache is untouched. -/
theorem callApiAux_state_timerCache (env : Env) (path : String)
    (params : List (String × JPrim)) :
    ∀ (n : Nat) (st : AccState) (ev : List HttpEvent),
      (callApiAux env path params st ev n).state.timerCache = st.timerCache := by
  intro n
  induction n with
  | zero =>
    intro st ev
    cases ev with
    | nil => simp [callApiAux]
    | cons e rest =>
      cases e with
      | tErr => simp [callApiAux]
      | resp code body =>
        simp only [callApiAux]
        repeat' split
        all_goals simp
  | succ m ih =>
    intro st ev
    cases ev with
    | nil => simp [callApiAux]
    | cons e rest =>
      cases e with
      | tErr => simp [callApiAux]
      | resp code body =>
        simp only [callApiAux]
        repeat' split
        all_goals simp [ih, applyCreds]

/-- C4 (amended): for every path and params map whose keys avoid `nid`
and `timestamp`, the issued query contains the injected `nid` and
`timestamp` values; admin-prefixed paths are issued root-relative and
all other paths get the `/amosFragrance` base path prepended.  (The
original claim is refuted by `callApi_params_override_nid`: a caller
param named `nid` or `timestamp` DOES overwrite the injected value,
because the source spreads `...params` after the injected keys.) -/
theorem callApi_query_injection (st : AccState) (env : Env) (ev : List HttpEvent)
    (path : String) (params : List (String × JPrim))
    (hk : ∀ p ∈ params, ¬ p.1 = "nid" ∧ ¬ p.1 = "timestamp") :
    ∃ req, (callApi st env ev path params 0).requests.head? = some req ∧
      qlookup req.query "nid" = some (.str st.nid) ∧
      qlookup req.query "timestamp" = some (.num env.ts) ∧
      (jsStartsWith path "/admin" = true → req.path = path) ∧
      (jsStartsWith path "/admin" = false →
        req.path = "/amosFragrance" ++ path) := by
  simp only [callApi]
  refine ⟨_, callApiAux_requests_head env path params st ev (1 - 0), ?_, ?_, ?_, ?_⟩
  · rw [buildQuery, qlookup_buildQuery_of_fresh params "nid"
      (fun p hp => (hk p hp).1)]
    simp [qlookup, List.find?]
  · rw [buildQuery, qlookup_buildQuery_of_fresh params "timestamp"
      (fun p hp => (hk p hp).2)]
    simp [qlookup, List.find?]
  · intro hadm
    simp [resourcePathOf, hadm]
  · intro hadm
    simp [resourcePathOf, hadm]

/-- Counterexample to C4 as frozen: a caller-supplied `nid` param
overwrites the injected `nid` — the sole issued request carries the
caller's value, not the state's `nid1`. -/
theorem callApi_params_override_nid :
    ((callApi wSt wEnv [.resp 200 (some wOk)] "/openFragrance.do"
        [("nid", .str "spoofed")] 0).requests.map
          (fun r => qlookup r.query "nid")) = [some (.str "spoofed")] ∧
    wSt.nid = "nid1" ∧ (JPrim.str "spoofed" ≠ JPrim.str "nid1") := by
  decide

/-- Witness for C4 (amended) at concrete inputs. -/
theorem callApi_query_injection_witness :
    ((callApi wSt wEnv [.resp 200 (some wOk)] "/timerList.do"
        [("isBluetooth", JPrim.num 0)] 0).requests.head?.map
          (fun r => (qlookup r.query "nid", qlookup r.query "timestamp", r.path))) =
      some (some (.str "nid1"), some (.num 42), "/amosFragrance/timerList.do") := by
  obtain ⟨req, hhead, hnid, hts, _, hnon⟩ := callApi_query_injection wSt wEnv
    [.resp 200 (some wOk)] "/timerList.do" [("isBluetooth", JPrim.num 0)]
    (by decide)
  rw [hhead]
  have hp := hnon (by decide)
  simp [hnid, hts, hp, wSt, wEnv]

/-- C5: for intensity inputs v in [1,100] the set operation issues an
update whose `run` query parameter equals `max(5, round(v*3))`, carrying
every other field of the first fetched timer verbatim (in particular
`suspend`), against `/amosFragrance/updateTimer.do`; v = 0 issues no
network call and returns without error; an empty fetched timer list makes
the operation fail. -/
theorem setRotationSpeed_spec (st : AccState) (env : Env) (rest : List HttpEvent)
    (v : ℚ) (timer : Timer) (more : List Timer) (hv : 1 ≤ v ∧ v ≤ 100) :
    (((setRotationSpeed st env
        (.resp 200 (some ⟨"200", .timers (timer :: more)⟩) :: rest) v).requests.map
          Request.path).get? 1 = some "/amosFragrance/updateTimer.do") ∧
    (((setRotationSpeed st env
        (.resp 200 (some ⟨"200", .timers (timer :: more)⟩) :: rest) v).requests.map
          (fun r => qlookup r.query "run")).get? 1 =
        some (some (.num ((max 5 (jsRound (v * 3)) : ℤ) : ℚ)))) ∧
    (((setRotationSpeed st env
        (.resp 200 (some ⟨"200", .timers (timer :: more)⟩) :: rest) v).requests.map
          (fun r => (qlookup r.query "timerId", qlookup r.query "uid",
            qlookup r.query "name", qlookup r.query "start",
            qlookup r.query "stop", qlookup r.query "mode",
            qlookup r.query "suspend"))).get? 1 =
        some (some timer.timerId, some timer.uid, some timer.name,
          some timer.start, some timer.stop, some timer.mode,
          some timer.suspend)) ∧
    ((setRotationSpeed st env rest 0).requests = [] ∧
      (setRotationSpeed st env rest 0).result = .ok ()) ∧
    ((updateTimerIntensity st env
        (.resp 200 (some ⟨"200", .timers []⟩) :: rest)
        ((max 5 (jsRound (v * 3)) : ℤ) : ℚ)).result = .error .noTimersFound) ∧
    ((setRotationSpeed st env
        (.resp 200 (some ⟨"200", .timers []⟩) :: rest) v).result =
      .error .serviceCommFailure) := by
  have hv0 : ¬ v = 0 := by
    intro h
    rw [h] at hv
    exact absurd hv.1 (by norm_num)
  have hreq : (setRotationSpeed st env
      (.resp 200 (some ⟨"200", .timers (timer :: more)⟩) :: rest) v).requests =
      { path := resourcePathOf "/timerList.do",
        query := buildQuery st.nid env.ts [("isBluetooth", .num 0)],
        cookie := cookieOf st } ::
      (callApiAux env "/updateTimer.do"
        (timerParams timer ((max 5 (jsRound (v * 3)) : ℤ) : ℚ))
        { st with timerCache := some timer } rest 1).requests := by
    simp [setRotationSpeed, hv0, updateTimerIntensity, callApi, callApiAux]
  have hhead := callApiAux_requests_head env "/updateTimer.do"
    (timerParams timer ((max 5 (jsRound (v * 3)) : ℤ) : ℚ))
    { st with timerCache := some timer } rest 1
  refine ⟨?_, ?_, ?_, ?_, ?_, ?_⟩
  · rw [hreq]
    simp only [List.map_cons, List.get?_cons_succ, ← List.get?_zero,
      List.get?_zero, List.head?_map, hhead]
    simp [resourcePathOf, jsStartsWith]
  · rw [hreq]
    simp only [List.map_cons, List.get?_cons_succ, List.get?_zero,
      List.head?_map, hhead]
    simp [buildQuery, timerParams, objInsert, qlookup, List.find?]
  · rw [hreq]
    simp only [List.map_cons, List.get?_cons_succ, List.get?_zero,
      List.head?_map, hhead]
    simp [buildQuery, timerParams, objInsert, qlookup, List.find?]
  · constructor <;> simp [setRotationSpeed]
  · simp [updateTimerIntensity, callApi, callApiAux]
  · simp [setRotationSpeed, hv0, updateTimerIntensity, callApi, callApiAux,
      Except.mapError]

/-- Witness for C5 at concrete inputs: v = 30 maps to a 90-second run. -/
theorem setRotationSpeed_spec_witness :
    (((setRotationSpeed wSt wEnv
        [.resp 200 (some ⟨"200", .timers [wTimer]⟩), .resp 200 (some wOk)]
        30).requests.map Request.path).get? 1 =
      some "/amosFragrance/updateTimer.do") ∧
    (((setRotationSpeed wSt wEnv
        [.resp 200 (some ⟨"200", .timers [wTimer]⟩), .resp 200 (some wOk)]
        30).requests.map (fun r => qlookup r.query "run")).get? 1 =
      some (some (.num 90))) ∧
    (((setRotationSpeed wSt wEnv
        [.resp 200 (some ⟨"200", .timers [wTimer]⟩), .resp 200 (some wOk)]
        30).requests.map
          (fun r => (qlookup r.query "timerId", qlookup r.query "uid",
            qlookup r.query "name", qlookup r.query "start",
            qlookup r.query "stop", qlookup r.query "mode",
            qlookup r.query "suspend"))).get? 1 =
      some (some (.num 7), some (.str "tu"), some (.str "Morning"),
        some (.str "08:00"), some (.str "20:00"), some (.num 1),
        some (.num 25))) ∧
    (setRotationSpeed wSt wEnv [.resp 200 (some wOk)] 0).requests = [] ∧
    (updateTimerIntensity wSt wEnv
      [.resp 200 (some ⟨"200", .timers []⟩), .resp 200 (some wOk)] 90).result =
      .error .noTimersFound ∧
    (setRotationSpeed wSt wEnv
      [.resp 200 (some ⟨"200", .timers []⟩), .resp 200 (some wOk)] 30).result =
      .error .serviceCommFailure := by
  have h := setRotationSpeed_spec wSt wEnv [.resp 200 (some wOk)] 30 wTimer []
    (by norm_num)
  have hrun : ((max 5 (jsRound ((30 : ℚ) * 3)) : ℤ) : ℚ) = 90 := by
    norm_num [jsRound]
  obtain ⟨ha, hb, hc, hd, he, hf⟩ := h
  rw [hrun] at hb he
  exact ⟨ha, hb, by simpa [wTimer] using hc, hd.1, he, hf⟩

/-- C9: the intensity-get reads only the cached timer (the embedding of
`getRotationSpeed` consumes no HTTP events, so no network call can
occur): with no cached timer it returns 50, with a cached timer it
returns `min(100, round((run or 0)/3))`; and immediately after an
intensity-set whose fetch succeeded, it reflects the timer that fetch
placed in the cache. -/
theorem getRotationSpeed_spec (st : AccState) (env : Env) (rest : List HttpEvent)
    (timer : Timer) (more : List Timer) (nrt : ℚ) :
    (st.timerCache = none → getRotationSpeed st = 50) ∧
    (∀ t, st.timerCache = some t →
      getRotationSpeed st = min 100 (jsRound (t.run.getD 0 / 3))) ∧
    ((updateTimerIntensity st env
        (.resp 200 (some ⟨"200", .timers (timer :: more)⟩) :: rest)
          nrt).state.timerCache = some timer) ∧
    (getRotationSpeed (updateTimerIntensity st env
        (.resp 200 (some ⟨"200", .timers (timer :: more)⟩) :: rest) nrt).state =
      min 100 (jsRound (timer.run.getD 0 / 3))) := by
  have hor : ∀ x : Option ℚ, jsNumOr0 x = x.getD 0 := by
    intro x
    cases x with
    | none => rfl
    | some q => by_cases hq : q = 0 <;> simp [jsNumOr0, hq]
  have hcache : (updateTimerIntensity st env
      (.resp 200 (some ⟨"200", .timers (timer :: more)⟩) :: rest)
        nrt).state.timerCache = some timer := by
    simp [updateTimerIntensity, callApi, callApiAux, callApiAux_state_timerCache]
  refine ⟨?_, ?_, hcache, ?_⟩
  · intro h
    simp [getRotationSpeed, h]
  · intro t ht
    simp [getRotationSpeed, ht, hor]
  · simp [getRotationSpeed, hcache, hor]

/-- Witness for C9 at concrete inputs: the cached 5-second timer reads
back as 2 percent. -/
theorem getRotationSpeed_spec_witness :
    getRotationSpeed wSt = 50 ∧
    getRotationSpeed { wSt with timerCache := some wTimer } = 2 ∧
    (updateTimerIntensity wSt wEnv
      [.resp 200 (some ⟨"200", .timers [wTimer]⟩), .resp 200 (some wOk)]
      90).state.timerCache = some wTimer ∧
    getRotationSpeed (updateTimerIntensity wSt wEnv
      [.resp 200 (some ⟨"200", .timers [wTimer]⟩), .resp 200 (some wOk)]
      90).state = 2 := by
  have h := getRotationSpeed_spec wSt wEnv [.resp 200 (some wOk)] wTimer [] 90
  have hval : min 100 (jsRound ((wTimer.run.getD 0) / 3)) = 2 := by
    norm_num [wTimer, jsRound]
  refine ⟨h.1 rfl, ?_, h.2.2.1, hval ▸ h.2.2.2⟩
  have h2 := (getRotationSpeed_spec { wSt with timerCache := some wTimer }
    wEnv [] wTimer [] 90).2.1 wTimer rfl
  rw [h2, hval]

/-- C10: the intensity-set is not atomic with respect to the timer cache:
when the timer-list fetch succeeds with a non-empty list but the
subsequent `/updateTimer.do` call fails, the operation fails yet the
cache already holds the fetched timer, and a later intensity-get reflects
that fetched timer rather than the pre-operation cache. -/
theorem updateTimerIntensity_cache_not_atomic
    (st : AccState) (env : Env) (rest : List HttpEvent) (timer : Timer)
    (more : List Timer) (nrt : ℚ) (s2 : String) (d2 : JData)
    (hs : ¬ s2 = "200" ∧ ¬ s2 = "AuthenticationException" ∧ ¬ s2 = "401") :
    ((updateTimerIntensity st env
        (.resp 200 (some ⟨"200", .timers (timer :: more)⟩) ::
          .resp 200 (some ⟨s2, d2⟩) :: rest) nrt).result =
      .error (.api (.apiStatus s2))) ∧
    ((updateTimerIntensity st env
        (.resp 200 (some ⟨"200", .timers (timer :: more)⟩) ::
          .resp 200 (some ⟨s2, d2⟩) :: rest) nrt).state.timerCache =
      some timer) ∧
    (getRotationSpeed (updateTimerIntensity st env
        (.resp 200 (some ⟨"200", .timers (timer :: more)⟩) ::
          .resp 200 (some ⟨s2, d2⟩) :: rest) nrt).state =
      min 100 (jsRound (timer.run.getD 0 / 3))) := by
  have hor : ∀ x : Option ℚ, jsNumOr0 x = x.getD 0 := by
    intro x
    cases x with
    | none => rfl
    | some q => by_cases hq : q = 0 <;> simp [jsNumOr0, hq]
  have hcache : (updateTimerIntensity st env
      (.resp 200 (some ⟨"200", .timers (timer :: more)⟩) ::
        .resp 200 (some ⟨s2, d2⟩) :: rest) nrt).state.timerCache =
      some timer := by
    simp [updateTimerIntensity, callApi, callApiAux, hs.1, hs.2.1, hs.2.2]
  refine ⟨?_, hcache, ?_⟩
  · simp [updateTimerIntensity, callApi, callApiAux, hs.1, hs.2.1, hs.2.2,
      Except.mapError, Except.map]
  · simp [getRotationSpeed, hcache, hor]

/-- Witness for C10 at concrete inputs: a failing update (device-side
status 500) still leaves the fetched timer in the cache. -/
theorem updateTimerIntensity_cache_not_atomic_witness :
    ((updateTimerIntensity wSt wEnv
        [.resp 200 (some ⟨"200", .timers [wTimer]⟩),
         .resp 200 (some ⟨"500", .undefined⟩)] 90).result =
      .error (.api (.apiStatus "500"))) ∧
    ((updateTimerIntensity wSt wEnv
        [.resp 200 (some ⟨"200", .timers [wTimer]⟩),
         .resp 200 (some ⟨"500", .undefined⟩)] 90).state.timerCache =
      some wTimer) ∧
    (getRotationSpeed (updateTimerIntensity wSt wEnv
        [.resp 200 (some ⟨"200", .timers [wTimer]⟩),
         .resp 200 (some ⟨"500", .undefined⟩)] 90).state = 2) := by
  have h := updateTimerIntensity_cache_not_atomic wSt wEnv [] wTimer [] 90
    "500" .undefined (by refine ⟨?_, ?_, ?_⟩ <;> decide)
  have hval : min 100 (jsRound ((wTimer.run.getD 0) / 3)) = 2 := by
    norm_num [wTimer, jsRound]
  exact ⟨h.1, h.2.1, hval ▸ h.2.2⟩

/-- C6: a successful status poll with a `data` payload updates the local
cache: `isOn` is strict boolean equality of the wire `status` field with
`true`, the consumable level is the wire `liquidLevel` defaulting to 0
when absent, the lock characteristic follows the truthiness of
`lockMark`, and the rotation percentage is `min(100, round((run or 0)/3))`
(so the scenario `{status: true, run: 90, liquidLevel: 0, lockMark: true}`
yields `isOn = true`, level 0, locked, 30 percent — see the witness). -/
theorem pollStatus_spec (st : AccState) (env : Env) (rest : List HttpEvent)
    (d : StatusData) :
    ((pollStatus st env
        (.resp 200 (some ⟨"200", .statusObj d⟩) :: rest)).state.isOn =
      decide (d.status = .bool true)) ∧
    (d.liquidLevel = none →
      (pollStatus st env
        (.resp 200 (some ⟨"200", .statusObj d⟩) :: rest)).state.oilLevel = 0) ∧
    ((pollStatus st env
        (.resp 200 (some ⟨"200", .statusObj d⟩) :: rest)).state.oilLevel =
      d.liquidLevel.getD 0) ∧
    ((pollStatus st env
        (.resp 200 (some ⟨"200", .statusObj d⟩) :: rest)).updates =
      some { onValue := decide (d.status = .bool true),
             filterLife := d.liquidLevel.getD 0,
             lock := if jTruthy d.lockMark then 1 else 0,
             speed := min 100 (jsRound (d.run.getD 0 / 3)) }) := by
  have hor : ∀ x : Option ℚ, jsNumOr0 x = x.getD 0 := by
    intro x
    cases x with
    | none => rfl
    | some q => by_cases hq : q = 0 <;> simp [jsNumOr0, hq]
  have hstrict : ∀ p : JPrim, jstrictTrue p = decide (p = .bool true) := by
    intro p
    cases p with
    | bool b => cases b <;> simp [jstrictTrue]
    | _ => simp [jstrictTrue]
  refine ⟨?_, ?_, ?_, ?_⟩ <;>
    simp [pollStatus, callApi, callApiAux, JData.truthy, JData.statusOf,
      JData.runOf, JData.liquidLevelOf, JData.lockMarkOf, hor, hstrict]
  · intro h
    simp [h]

/-- Witness for C6 at the scenario inputs of the claim. -/
theorem pollStatus_spec_witness :
    (pollStatus wSt wEnv
        [.resp 200 (some ⟨"200",
          .statusObj ⟨.bool true, some 90, some 0, .bool true⟩⟩)]).state.isOn
      = true ∧
    (pollStatus wSt wEnv
        [.resp 200 (some ⟨"200",
          .statusObj ⟨.bool true, some 90, some 0, .bool true⟩⟩)]).state.oilLevel
      = 0 ∧
    (pollStatus wSt wEnv
        [.resp 200 (some ⟨"200",
          .statusObj ⟨.bool true, some 90, some 0, .bool true⟩⟩)]).updates =
      some { onValue := true, filterLife := 0, lock := 1, speed := 30 } := by
  have h := pollStatus_spec wSt wEnv [] ⟨.bool true, some 90, some 0, .bool true⟩
  have hjr : jsRound ((90 : ℚ) / 3) = 30 := by
    norm_num [jsRound]
  refine ⟨by simpa using h.1, by simpa using h.2.2.1, ?_⟩
  simpa [jTruthy, hjr] using h.2.2.2

/-- C7: a login response with a 2xx/3xx status and no `Set-Cookie` header
fails with invalid credentials when the body carries the
`AuthenticationException` marker and otherwise resolves with no cookies
and no error; any status outside 2xx/3xx fails with an HTTP error
carrying that status. -/
theorem login_spec (code : Nat) (cs : Option (List String)) (body : String) :
    ((200 ≤ code ∧ code < 400) →
      (jsIncludes body "AuthenticationException" = true →
        login (.resp code none body) = .error .invalidCredentials) ∧
      (jsIncludes body "AuthenticationException" = false →
        login (.resp code none body) = .ok none)) ∧
    (¬ (200 ≤ code ∧ code < 400) →
      login (.resp code cs body) = .error (.httpError code)) := by
  constructor
  · intro hc
    constructor <;> intro hb <;> simp [login, hc.1, hc.2, hb]
  · intro hc
    simp only [login]
    rw [if_neg hc]

/-- Witness for C7 at concrete inputs. -/
theorem login_spec_witness :
    login (.resp 200 none "an AuthenticationException occurred") =
      .error .invalidCredentials ∧
    login (.resp 200 none "all good") = .ok none ∧
    login (.resp 404 (some ["token=t"]) "x") = .error (.httpError 404) := by
  have h1 := (login_spec 200 none "an AuthenticationException occurred").1
    (by norm_num)
  have h2 := (login_spec 200 none "all good").1 (by norm_num)
  have h3 := (login_spec 404 (some ["token=t"]) "x").2 (by norm_num)
  exact ⟨h1.1 (by decide), h2.2 (by decide), h3⟩

/-- C8: a lock-set with requested value b calls the matching lock/unlock
admin endpoint (unlock with fixed params `days = 0`, `name = ""`); if the
underlying call fails, a compensating characteristic update to the
opposite of b is scheduled after the fixed 500ms delay and the operation
reports failure; on success it resolves and schedules only a re-poll. -/
theorem setLock_spec (st : AccState) (env : Env) (ev : List HttpEvent) (b : Bool) :
    ((setLock st env ev b).requests.head?.map Request.path =
      some (lockEndpoint b)) ∧
    (lockEndpoint true = "/admin/amos/deviceLock.do" ∧
      lockEndpoint false = "/admin/amos/deviceUnlock.do") ∧
    (b = false →
      (setLock st env ev b).requests.head?.map
          (fun r => (qlookup r.query "days", qlookup r.query "name")) =
        some (some (.num 0), some (.str ""))) ∧
    (∀ e, (callApi st env ev (lockEndpoint b) (lockParams b) 0).result = .error e →
      (setLock st env ev b).result = .error .serviceCommFailure ∧
      (setLock st env ev b).scheduled =
        [.setLockChar 500 (if b then 0 else 1)]) ∧
    (∀ r, (callApi st env ev (lockEndpoint b) (lockParams b) 0).result = .ok r →
      (setLock st env ev b).result = .ok () ∧
      (setLock st env ev b).scheduled = [.pollAfter 1000]) := by
  have hadm : resourcePathOf (lockEndpoint b) = lockEndpoint b := by
    cases b <;> decide
  have hreq : (setLock st env ev b).requests =
      (callApi st env ev (lockEndpoint b) (lockParams b) 0).requests := by
    rcases hr : (callApi st env ev (lockEndpoint b) (lockParams b) 0).result
      with e | r <;> simp [setLock, hr]
  have hhead := callApiAux_requests_head env (lockEndpoint b) (lockParams b)
    st ev (1 - 0)
  refine ⟨?_, ⟨rfl, rfl⟩, ?_, ?_, ?_⟩
  · rw [hreq]
    simp only [callApi]
    simp [hhead, hadm]
  · intro hb
    rw [hreq]
    simp only [callApi]
    simp only [hhead, Option.map_some]
    subst hb
    simp [lockParams, buildQuery, objInsert, qlookup, List.find?]
  · intro e he
    refine ⟨by simp [setLock, he], ?_⟩
    cases b <;> simp [setLock, he]
  · intro r hr
    constructor <;> simp [setLock, hr]

/-- Witness for C8 at concrete inputs: a failed unlock schedules the
500ms compensating update to the locked value; a successful lock calls
the lock endpoint and schedules only the re-poll. -/
theorem setLock_spec_witness :
    (setLock wSt wEnv [.tErr] false).requests.head?.map Request.path =
      some "/admin/amos/deviceUnlock.do" ∧
    (setLock wSt wEnv [.tErr] false).requests.head?.map
        (fun r => (qlookup r.query "days", qlookup r.query "name")) =
      some (some (.num 0), some (.str "")) ∧
    (setLock wSt wEnv [.tErr] false).result = .error .serviceCommFailure ∧
    (setLock wSt wEnv [.tErr] false).scheduled = [.setLockChar 500 1] ∧
    (setLock wSt wEnv [.resp 200 (some wOk)] true).result = .ok () ∧
    (setLock wSt wEnv [.resp 200 (some wOk)] true).scheduled =
      [.pollAfter 1000] ∧
    (setLock wSt wEnv [.resp 200 (some wOk)] true).requests.head?.map
      Request.path = some "/admin/amos/deviceLock.do" := by
  have hf := setLock_spec wSt wEnv [.tErr] false
  have ht := setLock_spec wSt wEnv [.resp 200 (some wOk)] true
  have hfe : (callApi wSt wEnv [.tErr] (lockEndpoint false)
      (lockParams false) 0).result = .error .transport := by decide
  have hto : (callApi wSt wEnv [.resp 200 (some wOk)] (lockEndpoint true)
      (lockParams true) 0).result = .ok wOk := by decide
  obtain ⟨hp, -, hdn, herr, -⟩ := hf
  obtain ⟨hp2, -, -, -, hok⟩ := ht
  have he := herr .transport hfe
  have ho := hok wOk hto
  exact ⟨by simpa [lockEndpoint] using hp, hdn rfl, he.1,
    by simpa using he.2, ho.1, ho.2, by simpa [lockEndpoint] using hp2⟩
